import Mathlib

/-!
Verification of the AISI survey-dashboard data pipeline.

The development shallowly embeds the data model and operations of
src/streamlit_app.py: the dataframe rows the dashboard reads, the
sidebar filter block (lines 77 to 81), the summary aggregations
(lines 100 to 135), the raw-column rename map (lines 39 to 49) and the
chatbot keyword gate (lines 186 to 210).  The value canonicalizer
described by the specification (yes/no folding, blank handling,
title casing) lives upstream of this file, in the warehouse table
AI_SURVEY_CLEAN; it is modelled here from the specification text and
clearly marked as such.

Cells of the dataframe are `Option String` (`none` is a NULL coming
out of the warehouse, a pandas NaN); the derived numeric rating column
is `Option ℚ` (`none` is the NaN produced by `pd.to_numeric` with
`errors="coerce"`).
-/

namespace AISI

/-- One row of the survey dataframe, restricted to the columns the
dashboard reads.  A cell holds `none` when the warehouse value is NULL
(pandas NaN). -/
structure Row where
  AGE_RANGE : Option String
  GENDER : Option String
  EDUCATION_LEVEL : Option String
  EMPLOYMENT_STATUS : Option String
  TRUST_AI : Option String
  WANT_MORE_AI : Option String
  AI_USAGE_RATING : Option String
  AI_USAGE_RATING_NUM : Option ℚ
deriving DecidableEq, Repr

/-- One step of the sidebar filter block: `if pick != "(All)": df_f =
df_f[df_f[col] == pick]`.  Comparing a NULL cell with a selected value
is false in pandas, which `cell == some pick` reproduces. -/
def filterStep (pick : String) (sel : Row → Option String) (d : List Row) : List Row :=
  if pick ≠ "(All)" then d.filter (fun r => sel r == some pick) else d

/-- The filter block of the dashboard (lines 77 to 81): the four picks
are applied in sequence to a copy of the base dataframe. -/
def applyFilters (df : List Row) (age_pick gender_pick edu_pick emp_pick : String) : List Row :=
  filterStep emp_pick (fun r => r.EMPLOYMENT_STATUS)
    (filterStep edu_pick (fun r => r.EDUCATION_LEVEL)
      (filterStep gender_pick (fun r => r.GENDER)
        (filterStep age_pick (fun r => r.AGE_RANGE) df)))

/-- The accepted-value set a single selectbox pick denotes: `"(All)"`
is the unconstrained (empty) set, any other pick the singleton set. -/
def fieldSpec (pick : String) : List String :=
  if pick = "(All)" then [] else [pick]

/-- A cell satisfies a per-field constraint when the field is
unconstrained (empty accepted set) or the cell is a member of the
accepted-value set (logical OR over the members). -/
def satisfiesField (accepted : List String) (cell : Option String) : Prop :=
  accepted = [] ∨ ∃ v ∈ accepted, cell = some v

theorem mem_filterStep (d : List Row) (pick : String) (sel : Row → Option String) (r : Row) :
    r ∈ filterStep pick sel d ↔ r ∈ d ∧ satisfiesField (fieldSpec pick) (sel r) := by
  by_cases h : pick = "(All)"
  · simp [filterStep, fieldSpec, satisfiesField, h]
  · simp [filterStep, fieldSpec, satisfiesField, h, List.mem_filter]

/-- C1: a row appears in the filtered result iff, for each of the four
filterable fields, its cell satisfies the accepted-value set denoted
by that pick: AND across fields, OR within a field, and the
`"(All)"` (empty-set) selection imposes no condition. -/
theorem filtered_mem_iff (df : List Row) (a g e m : String) (r : Row) :
    r ∈ applyFilters df a g e m ↔
      r ∈ df ∧ satisfiesField (fieldSpec a) r.AGE_RANGE ∧
        satisfiesField (fieldSpec g) r.GENDER ∧
        satisfiesField (fieldSpec e) r.EDUCATION_LEVEL ∧
        satisfiesField (fieldSpec m) r.EMPLOYMENT_STATUS := by
  unfold applyFilters
  rw [mem_filterStep, mem_filterStep, mem_filterStep, mem_filterStep]
  tauto

/-- The two dataframe bindings the dashboard holds after the filter
block: the base `df` and the filtered view `df_f`. -/
structure DashboardView where
  df : List Row
  df_f : List Row
deriving DecidableEq, Repr

/-- Lines 77 to 81 of the dashboard: `df_f = df.copy()` followed by
the four conditional filters.  The name `df` is never reassigned. -/
def runFilterBlock (df : List Row) (a g e m : String) : DashboardView :=
  { df := df, df_f := applyFilters df a g e m }

theorem filterStep_sublist (d : List Row) (pick : String) (sel : Row → Option String) :
    List.Sublist (filterStep pick sel d) d := by
  unfold filterStep
  split
  · exact List.filter_sublist d
  · exact List.Sublist.refl d

/-- C9: applying the filters is non-destructive: the base dataframe
held by the dashboard after the filter block is exactly the input
(same rows, same values, same order), and the filtered view is a
fresh subsequence of it. -/
theorem runFilterBlock_nondestructive (df : List Row) (a g e m : String) :
    (runFilterBlock df a g e m).df = df ∧
      List.Sublist (runFilterBlock df a g e m).df_f df := by
  refine ⟨rfl, ?_⟩
  show List.Sublist (applyFilters df a g e m) df
  unfold applyFilters
  exact (filterStep_sublist _ _ _).trans ((filterStep_sublist _ _ _).trans
    ((filterStep_sublist _ _ _).trans (filterStep_sublist _ _ _)))

/-- Arithmetic mean of the non-missing entries of a numeric column,
as computed by pandas `Series.mean()` on line 101: NaN entries are
skipped, and a column with zero non-missing entries yields NaN,
modelled as `none`. -/
def mean_numeric (xs : List (Option ℚ)) : Option ℚ :=
  let vs := xs.filterMap id
  if vs.length = 0 then none else some (vs.sum / vs.length)

/-- Line 101 of the dashboard: the average usage rating of a
(possibly filtered) dataframe. -/
def avg_rating (df : List Row) : Option ℚ :=
  mean_numeric (df.map (fun r => r.AI_USAGE_RATING_NUM))

/-- The non-missing values of the derived numeric rating column. -/
def nonMissingRatings (df : List Row) : List ℚ :=
  (df.map (fun r => r.AI_USAGE_RATING_NUM)).filterMap id

/-- C6: the average rating is the arithmetic mean of the non-missing
values of the derived numeric rating column, and whenever zero
non-missing values exist (a zero-row dataframe included) the result is
the undefined marker `none` rather than an exception or a division by
zero. -/
theorem avg_rating_spec (df : List Row) :
    (avg_rating df = none ↔ nonMissingRatings df = []) ∧
      (nonMissingRatings df ≠ [] →
        avg_rating df = some ((nonMissingRatings df).sum / (nonMissingRatings df).length)) ∧
      avg_rating ([] : List Row) = none := by
  refine ⟨?_, ?_, rfl⟩
  · unfold avg_rating mean_numeric nonMissingRatings
    simp [List.length_eq_zero]
  · intro h
    have hne : ((df.map (fun r => r.AI_USAGE_RATING_NUM)).filterMap id).length ≠ 0 := by
      have h2 : nonMissingRatings df ≠ [] := h
      simpa [nonMissingRatings, List.length_eq_zero] using h2
    unfold avg_rating mean_numeric
    simp only [if_neg hne]
    rfl

/-- A concrete dataframe with ratings 3, NaN and 5. -/
def ratingRow (q : Option ℚ) : Row :=
  { AGE_RANGE := none, GENDER := none, EDUCATION_LEVEL := none,
    EMPLOYMENT_STATUS := none, TRUST_AI := none, WANT_MORE_AI := none,
    AI_USAGE_RATING := none, AI_USAGE_RATING_NUM := q }

def ratingSample : List Row := [ratingRow (some 3), ratingRow none, ratingRow (some 5)]

/-- Witness for C6: on the sample with non-missing ratings 3 and 5 the
average is 4, and the zero-row dataframe yields the `none` marker. -/
theorem avg_rating_spec_witness :
    avg_rating ratingSample = some 4 ∧ avg_rating ([] : List Row) = none := by
  have h := (avg_rating_spec ratingSample).2.1 (by decide)
  have hval : ((nonMissingRatings ratingSample).sum /
      ((nonMissingRatings ratingSample).length : ℚ)) = 4 := by
    have hl : nonMissingRatings ratingSample = [3, 5] := by
      simp [nonMissingRatings, ratingSample, ratingRow]
    rw [hl]
    norm_num
  exact ⟨by rw [h, hval], (avg_rating_spec ([] : List Row)).2.2⟩

/-- Line 120 and line 135 of the dashboard: before counting, missing
cells are replaced by the marker string `"Not Answered"`. -/
def fillNotAnswered (xs : List (Option String)) : List String :=
  xs.map (fun x => x.getD "Not Answered")

/-- The occurrence count of one canonical value in a column, as
computed by `fillna("Not Answered").value_counts()`. -/
def value_frequency (xs : List (Option String)) (v : String) : Nat :=
  (fillNotAnswered xs).count v

/-- Line 120 of the dashboard: frequency of one value of the
WANT_MORE_AI column of a (possibly filtered) dataframe. -/
def want_counts (df : List Row) (v : String) : Nat :=
  value_frequency (df.map (fun r => r.WANT_MORE_AI)) v

/-- A concrete dataframe whose WANT_MORE_AI column is
Yes, Yes, No, missing. -/
def wantRow (v : Option String) : Row :=
  { AGE_RANGE := none, GENDER := none, EDUCATION_LEVEL := none,
    EMPLOYMENT_STATUS := none, TRUST_AI := none, WANT_MORE_AI := v,
    AI_USAGE_RATING := none, AI_USAGE_RATING_NUM := none }

def wantSample : List Row :=
  [wantRow (some "Yes"), wantRow (some "Yes"), wantRow (some "No"), wantRow none]

/-- C7: the value-frequency table maps each canonical value of the
column, the missing marker `"Not Answered"` included, to its
occurrence count; every row is counted exactly once, so the counts sum
to the number of rows; on the column Yes, Yes, No, missing it counts
Yes twice, No once and Not Answered once. -/
theorem value_frequency_spec :
    (∀ df : List Row,
        ∑ v ∈ (fillNotAnswered (df.map (fun r => r.WANT_MORE_AI))).toFinset,
          want_counts df v = df.length) ∧
      want_counts wantSample "Yes" = 2 ∧ want_counts wantSample "No" = 1 ∧
      want_counts wantSample "Not Answered" = 1 := by
  refine ⟨?_, by decide, by decide, by decide⟩
  intro df
  simp [want_counts, value_frequency, fillNotAnswered,
    List.sum_toFinset_count_eq_length (fillNotAnswered (df.map (fun r => r.WANT_MORE_AI)))]

/-- The raw-column rename table of lines 40 to 48, applied when the
data source is AI_SURVEY_RAW: each key is the long survey question in
its SNAKE_CASE warehouse rendering, each value the short canonical
field name. -/
def rename_map : List (String × String) :=
  [("WHAT_IS_YOUR_AGE_RANGE", "AGE_RANGE"),
   ("WHAT_IS_YOUR_GENDER", "GENDER"),
   ("WHAT_IS_YOUR_EDUCATION_LEVEL", "EDUCATION_LEVEL"),
   ("WHAT_IS_YOUR_EMPLOYMENT_STATUS", "EMPLOYMENT_STATUS"),
   ("PLEASE_RATE_HOW_ACTIVELY_YOU_USE_AI_POWERED_PRODUCTS_IN_YOUR_DAILY_LIFE_ON_A_SCALE_FROM_1_TO_5",
    "AI_USAGE_RATING"),
   ("DO_YOU_GENERALLY_TRUST_ARTIFICIAL_INTELLIGENCE_AI", "TRUST_AI"),
   ("WOULD_YOU_LIKE_TO_USE_MORE_AI_PRODUCTS_IN_THE_FUTURE", "WANT_MORE_AI")]

/-- Line 49 of the dashboard, per column name: a raw column name that
is a key of the rename table becomes its canonical field name; any
other column name passes through unchanged. -/
def normalize_name (raw : String) : String :=
  match rename_map.lookup raw with
  | some canonical => canonical
  | none => raw

/-- C2 counterexample: the SNAKE_CASE short-form variant of the age
field is not a key of the rename table; only the long-question form
is.  The claim that both variants are present as keys is false. -/
theorem rename_map_short_form_not_key :
    rename_map.lookup "AGE_RANGE" = none ∧
      rename_map.lookup "WHAT_IS_YOUR_AGE_RANGE" = some "AGE_RANGE" := by
  constructor <;> rfl

/-- C2 amended: both raw-name variants of every logical field
normalize to the same canonical field, the long-question form through
the rename table and the short warehouse form by passing through
unchanged (it is already canonical and matches no key); any raw name
matching no key is returned unchanged. -/
theorem normalize_name_variants :
    (∀ p ∈ rename_map, normalize_name p.1 = p.2 ∧ normalize_name p.2 = p.2) ∧
      (∀ raw, rename_map.lookup raw = none → normalize_name raw = raw) := by
  constructor
  · decide
  · intro raw h
    unfold normalize_name
    rw [h]

/-- Witness for the amended C2: the age field, both variants, plus a
pass-through of an unknown column name. -/
theorem normalize_name_variants_witness :
    normalize_name "WHAT_IS_YOUR_AGE_RANGE" = "AGE_RANGE" ∧
      normalize_name "AGE_RANGE" = "AGE_RANGE" ∧
      normalize_name "RESPONSE_ID" = "RESPONSE_ID" :=
  ⟨(normalize_name_variants.1 ("WHAT_IS_YOUR_AGE_RANGE", "AGE_RANGE") (by decide)).1,
   (normalize_name_variants.1 ("WHAT_IS_YOUR_AGE_RANGE", "AGE_RANGE") (by decide)).2,
   normalize_name_variants.2 "RESPONSE_ID" (by rfl)⟩

/-- ASCII lowercasing of a string, character by character, as
`str.lower()` behaves on the ASCII questions and keywords involved. -/
def strLower (s : String) : String :=
  ⟨s.data.map Char.toLower⟩

/-- Whether the first list starts the second, character by character. -/
def leadsWith : List Char → List Char → Bool
  | [], _ => true
  | _ :: _, [] => false
  | a :: as, b :: bs => a == b && leadsWith as bs

/-- Whether the needle occurs contiguously anywhere in the haystack:
the semantics of the Python `in` operator on strings. -/
def containsSub : List Char → List Char → Bool
  | [], needle => leadsWith needle []
  | h :: t, needle => leadsWith needle (h :: t) || containsSub t needle

/-- Python `sub in s` for strings. -/
def strContains (s sub : String) : Bool :=
  containsSub s.data sub.data

/-- The fixed keyword allow-list of line 186. -/
def valid_keywords : List String :=
  ["age", "gender", "education", "employment", "ai usage", "trust", "adoption"]

/-- A single-quote character, used when rebuilding the SQL text. -/
def sq : String := String.singleton (Char.ofNat 39)

/-- JSON string escaping of one character, as `json.dumps` performs
on the characters that occur in the prompt. -/
def jsonEscapeChar (c : Char) : String :=
  if c.toNat = 92 then "\\\\"
  else if c.toNat = 34 then "\\\""
  else if c.toNat = 10 then "\\n"
  else if c.toNat = 9 then "\\t"
  else if c.toNat = 13 then "\\r"
  else String.singleton c

/-- Line 208: `json.dumps({"prompt": prompt})`. -/
def jsonDumpsPrompt (prompt : String) : String :=
  "\x7b\"prompt\": \"" ++ String.join (prompt.data.map jsonEscapeChar) ++ "\"\x7d"

/-- Line 209: single quotes are doubled for the SQL literal. -/
def sqlQuoteChar (c : Char) : String :=
  if c.toNat = 39 then sq ++ sq else String.singleton c

def sqlEscape (s : String) : String :=
  String.join (s.data.map sqlQuoteChar)

/-- Lines 194 to 206: the prompt template, with the chat history, the
data preview and the question interpolated, already stripped of the
leading and trailing newline of the template literal. -/
def buildPrompt (historyStr contextStr userInput : String) : String :=
  "You are a helpful assistant. Use the chat history and the table data below to answer the question.\n\nChat History:\n"
    ++ historyStr ++ "\n\nData Preview:\n" ++ contextStr ++ "\n\nQuestion:\n"
    ++ userInput ++ "\nAnswer:"

/-- Line 210: the Cortex completion statement sent to the warehouse. -/
def cortexSql (escapedPrompt : String) : String :=
  "SELECT SNOWFLAKE.CORTEX.COMPLETE(" ++ sq ++ "claude-3-5-sonnet" ++ sq ++ ", "
    ++ sq ++ escapedPrompt ++ sq ++ ");"

/-- What the chat handler decides for one submitted question: a local
rejection with a displayed message, or one call to the external
language-model service carrying the constructed SQL text. -/
inductive ChatAction where
  | rejected (msg : String)
  | serviceCall (sql : String)
deriving DecidableEq, Repr

/-- Lines 186 to 210: the topic-relevance gate followed, only on
acceptance, by prompt construction and the service call. -/
def handleChat (userInput contextStr historyStr : String) : ChatAction :=
  if !(valid_keywords.any fun kw => strContains (strLower userInput) kw) then
    ChatAction.rejected "⚠️ Sorry, your question seems outside the scope of the survey dataset."
  else
    ChatAction.serviceCall
      (cortexSql (sqlEscape (jsonDumpsPrompt (buildPrompt historyStr contextStr userInput))))

/-- C8: a question containing no term of the keyword allow-list is
rejected locally with the explanatory message, and no service call is
made for it. -/
theorem out_of_scope_rejected (userInput contextStr historyStr : String)
    (h : (valid_keywords.any fun kw => strContains (strLower userInput) kw) = false) :
    handleChat userInput contextStr historyStr =
        ChatAction.rejected "⚠️ Sorry, your question seems outside the scope of the survey dataset." ∧
      ∀ s, handleChat userInput contextStr historyStr ≠ ChatAction.serviceCall s := by
  unfold handleChat
  rw [h]
  exact ⟨rfl, fun s => by simp⟩

/-- Witness for C8: the capital-of-France question is rejected with
the message and triggers no service call. -/
theorem out_of_scope_rejected_witness :
    handleChat "What is the capital of France?" "" "" =
        ChatAction.rejected "⚠️ Sorry, your question seems outside the scope of the survey dataset." ∧
      ∀ s, handleChat "What is the capital of France?" "" "" ≠ ChatAction.serviceCall s :=
  out_of_scope_rejected "What is the capital of France?" "" "" (by decide)

/-- C10: the gate is case-insensitive substring containment over the
whole question text, not word-level matching: any question containing
an allow-list term anywhere, a fragment of a longer word included, is
accepted and forwarded to the external service. -/
theorem substring_match_forwarded (userInput contextStr historyStr : String)
    (h : (valid_keywords.any fun kw => strContains (strLower userInput) kw) = true) :
    handleChat userInput contextStr historyStr =
      ChatAction.serviceCall
        (cortexSql (sqlEscape (jsonDumpsPrompt (buildPrompt historyStr contextStr userInput)))) := by
  unfold handleChat
  rw [h]
  rfl

/-- Witness for C10: a question relevant only because the word
message contains the keyword age as a substring is forwarded to the
service. -/
theorem substring_match_forwarded_witness :
    handleChat "Did you get my message?" "preview" "history" =
      ChatAction.serviceCall
        (cortexSql (sqlEscape (jsonDumpsPrompt (buildPrompt "history" "preview" "Did you get my message?")))) :=
  substring_match_forwarded "Did you get my message?" "preview" "history" (by decide)

/-!
The value canonicalizer.  The cleaning rules below are not part of
src/streamlit_app.py: the dashboard reads the already cleaned
AI_SURVEY_CLEAN table, so the cleaning code of this repository sits
outside the provided source.  Every definition in this section is
modelled from the specification, section 4.2, and says so in its doc
comment.
-/

/-- Modelled from the spec: the enumerated canonical survey fields of
section 3 (the cleaning component is not in the provided source). -/
inductive CanonicalField where
  | AGE_RANGE | GENDER | EDUCATION_LEVEL | EMPLOYMENT_STATUS | OCCUPATION
  | DEVICE_USE_FREQUENCY | AI_KNOWLEDGE | TRUST_AI | BENEFIT_OR_HARM
  | AI_USAGE_RATING | WANT_MORE_AI | THREATEN_FREEDOMS | ELIMINATE_PROFESSIONS
  | OWN_JOB_AFFECTED | ETHICAL_LIMITS | CONSCIOUS_ONE_DAY | NOT_AI_APPLICATION
  | ML_ALGORITHM | CHATGPT_TYPE
deriving DecidableEq, Repr

/-- Modelled from the spec: the four rule categories of section 4.2. -/
inductive FieldCategory where
  | yesNo | numericRating | freeText | titleCased
deriving DecidableEq, Repr

/-- Modelled from the spec: TRUST_AI and WANT_MORE_AI are the yes/no
fields, AI_USAGE_RATING the numeric rating field, OCCUPATION the
free-text field, and every remaining field is title-cased. -/
def category : CanonicalField → FieldCategory
  | .TRUST_AI => .yesNo
  | .WANT_MORE_AI => .yesNo
  | .AI_USAGE_RATING => .numericRating
  | .OCCUPATION => .freeText
  | _ => .titleCased

/-- Modelled from the spec: a cell value before or after cleaning; the
missing marker is a dedicated constructor, distinct by construction
from every answer string. -/
inductive Value where
  | missing
  | str (s : String)
  | num (n : Int)
deriving DecidableEq, Repr

/-- ASCII whitespace, by code point. -/
def isSpaceChar (c : Char) : Bool :=
  c.toNat = 32 || c.toNat = 9 || c.toNat = 10 || c.toNat = 13

/-- Drops trailing whitespace from a character list. -/
def dropTrail : List Char → List Char
  | [] => []
  | c :: cs =>
    let r := dropTrail cs
    if r.isEmpty && isSpaceChar c then [] else c :: r

/-- Modelled from the spec: trimming, for the free-text rule. -/
def trimString (s : String) : String :=
  ⟨dropTrail (s.data.dropWhile isSpaceChar)⟩

/-- Capitalizes the first character of every whitespace-separated
word, leaving all other characters unchanged; the flag records whether
the next character starts a word. -/
def titleAux : Bool → List Char → List Char
  | _, [] => []
  | atStart, c :: cs =>
    if isSpaceChar c then c :: titleAux true cs
    else (if atStart then c.toUpper else c) :: titleAux false cs

/-- Modelled from the spec: title case, first letter of each word
capitalized, for the categorical display rule. -/
def titleCase (s : String) : String :=
  ⟨titleAux true s.data⟩

/-- Modelled from the spec: a raw text is blank when, trimmed and
lowercased, it is the empty string or a literal textual marker for
not-a-number or none. -/
def isBlankValue (s : String) : Bool :=
  let t := trimString (strLower s)
  t = "" || t = "nan" || t = "none"

/-- Modelled from the spec: the accepted spellings folded to Yes. -/
def yesTokens : List String := ["yes", "y", "true", "1"]

/-- Modelled from the spec: the accepted spellings folded to No. -/
def noTokens : List String := ["no", "n", "false", "0"]

/-- The numeric value of an ASCII digit. -/
def digitVal (c : Char) : Option Nat :=
  if 48 ≤ c.toNat ∧ c.toNat ≤ 57 then some (c.toNat - 48) else none

/-- Accumulates a decimal number over a digit list; any non-digit
character makes the parse fail. -/
def parseDigitsAux : Nat → List Char → Option Nat
  | acc, [] => some acc
  | acc, c :: cs =>
    match digitVal c with
    | some d => parseDigitsAux (acc * 10 + d) cs
    | none => none

/-- Modelled from the spec: the numeric parse attempted on the rating
field, an optional sign followed by decimal digits; failure yields
`none`, the absent marker, never an error. -/
def parseNumeric (s : String) : Option Int :=
  match (trimString s).data with
  | [] => none
  | c :: cs =>
    if c.toNat = 45 then
      match cs with
      | [] => none
      | _ :: _ => (parseDigitsAux 0 cs).map (fun n => -(n : Int))
    else
      (parseDigitsAux 0 (c :: cs)).map (fun n => (n : Int))

/-- Modelled from the spec, section 4.2: the per-field cleaning rule.
Blank handling comes first for every field; then the yes/no folding,
the numeric parse, the trim or the title-casing of the field category.
An already numeric cell passes through unchanged. -/
def canonicalize (f : CanonicalField) (v : Value) : Value :=
  match v with
  | .missing => .missing
  | .num n => .num n
  | .str s =>
    if isBlankValue s then .missing
    else
      match category f with
      | .yesNo =>
        if strLower s ∈ yesTokens then .str "Yes"
        else if strLower s ∈ noTokens then .str "No"
        else .str s
      | .numericRating =>
        match parseNumeric s with
        | some n => .num n
        | none => .missing
      | .freeText => .str (trimString s)
      | .titleCased => .str (titleCase s)

/-- How a cell is rendered downstream: the missing marker displays as
the string Not Answered (line 120 and line 135 of the dashboard). -/
def renderValue : Value → String
  | .missing => "Not Answered"
  | .str s => s
  | .num n => toString n

theorem toNat_ofNat_valid (n : Nat) (h : n < 55296) : (Char.ofNat n).toNat = n := by
  rw [Char.ofNat, dif_pos (Or.inl (by exact_mod_cast h))]
  rfl

theorem toLower_eq_ite (c : Char) :
    c.toLower = if c.toNat ≥ 65 ∧ c.toNat ≤ 90 then Char.ofNat (c.toNat + 32) else c := rfl

theorem toUpper_eq_ite (c : Char) :
    c.toUpper = if c.toNat ≥ 97 ∧ c.toNat ≤ 122 then Char.ofNat (c.toNat - 32) else c := rfl

theorem toUpper_toUpper (c : Char) : c.toUpper.toUpper = c.toUpper := by
  by_cases h : c.toNat ≥ 97 ∧ c.toNat ≤ 122
  · rw [toUpper_eq_ite c, if_pos h, toUpper_eq_ite, toNat_ofNat_valid _ (by omega),
      if_neg (by omega)]
  · rw [toUpper_eq_ite c, if_neg h, toUpper_eq_ite, if_neg h]

theorem toLower_toUpper (c : Char) : c.toUpper.toLower = c.toLower := by
  by_cases h : c.toNat ≥ 97 ∧ c.toNat ≤ 122
  · rw [toUpper_eq_ite c, if_pos h, toLower_eq_ite, toNat_ofNat_valid _ (by omega),
      if_pos (by omega), toLower_eq_ite c, if_neg (by omega),
      show c.toNat - 32 + 32 = c.toNat from by omega, Char.ofNat_toNat]
  · rw [toUpper_eq_ite c, if_neg h]

theorem isSpaceChar_of_toNat (c : Char) (h : 65 ≤ c.toNat) : isSpaceChar c = false := by
  unfold isSpaceChar
  simp only [Bool.or_eq_false_iff, decide_eq_false_iff_not]
  omega

theorem isSpaceChar_toUpper (c : Char) : isSpaceChar c.toUpper = isSpaceChar c := by
  by_cases h : c.toNat ≥ 97 ∧ c.toNat ≤ 122
  · rw [toUpper_eq_ite c, if_pos h, isSpaceChar_of_toNat c (by omega),
      isSpaceChar_of_toNat _ (by rw [toNat_ofNat_valid _ (by omega)] ; omega)]
  · rw [toUpper_eq_ite c, if_neg h]

theorem isSpaceChar_toLower (c : Char) : isSpaceChar c.toLower = isSpaceChar c := by
  by_cases h : c.toNat ≥ 65 ∧ c.toNat ≤ 90
  · rw [toLower_eq_ite c, if_pos h, isSpaceChar_of_toNat c (by omega),
      isSpaceChar_of_toNat _ (by rw [toNat_ofNat_valid _ (by omega)] ; omega)]
  · rw [toLower_eq_ite c, if_neg h]

theorem isSpaceChar_eq_false_toUpper (c : Char) (h : isSpaceChar c = false) :
    isSpaceChar c.toUpper = false := by
  rw [isSpaceChar_toUpper]
  exact h

theorem dropWhile_self {α : Type} (p : α → Bool) (l : List α) :
    (l.dropWhile p).dropWhile p = l.dropWhile p := by
  induction l with
  | nil => rfl
  | cons a t ih =>
    by_cases h : p a
    · rw [List.dropWhile_cons_of_pos h, ih]
    · rw [List.dropWhile_cons_of_neg h, List.dropWhile_cons_of_neg h]

theorem dropTrail_cons (c : Char) (cs : List Char) :
    dropTrail (c :: cs) =
      if ((dropTrail cs).isEmpty && isSpaceChar c) then [] else c :: dropTrail cs := rfl

theorem dropTrail_idem (l : List Char) : dropTrail (dropTrail l) = dropTrail l := by
  induction l with
  | nil => rfl
  | cons c cs ih =>
    rw [dropTrail_cons]
    by_cases h : ((dropTrail cs).isEmpty && isSpaceChar c) = true
    · rw [if_pos h]
      rfl
    · rw [if_neg h, dropTrail_cons, ih, if_neg h]

theorem dropWhile_dropTrail (l : List Char) (h : l.dropWhile isSpaceChar = l) :
    (dropTrail l).dropWhile isSpaceChar = dropTrail l := by
  cases l with
  | nil => rfl
  | cons c cs =>
    have hc : isSpaceChar c = false := by
      by_cases hc : isSpaceChar c = true
      · rw [List.dropWhile_cons_of_pos hc] at h
        have hlen := (List.dropWhile_sublist (l := cs) isSpaceChar).length_le
        rw [h] at hlen
        simp at hlen
      · simpa using hc
    rw [dropTrail_cons]
    by_cases h2 : ((dropTrail cs).isEmpty && isSpaceChar c) = true
    · rw [if_pos h2]
      rfl
    · rw [if_neg h2, List.dropWhile_cons_of_neg (by simp [hc])]

theorem isEmpty_map {α β : Type} (f : α → β) (l : List α) :
    (l.map f).isEmpty = l.isEmpty := by
  cases l <;> rfl

theorem dropTrail_map_toLower (l : List Char) :
    dropTrail (l.map Char.toLower) = (dropTrail l).map Char.toLower := by
  induction l with
  | nil => rfl
  | cons c cs ih =>
    rw [List.map_cons, dropTrail_cons, dropTrail_cons, ih, isEmpty_map, isSpaceChar_toLower]
    by_cases h : ((dropTrail cs).isEmpty && isSpaceChar c) = true
    · rw [if_pos h, if_pos h]
      rfl
    · rw [if_neg h, if_neg h]
      rfl

theorem titleAux_cons (b : Bool) (c : Char) (cs : List Char) :
    titleAux b (c :: cs) =
      if isSpaceChar c then c :: titleAux true cs
      else (if b then c.toUpper else c) :: titleAux false cs := rfl

theorem titleAux_idem (b : Bool) (l : List Char) :
    titleAux b (titleAux b l) = titleAux b l := by
  induction l generalizing b with
  | nil => rfl
  | cons c cs ih =>
    rw [titleAux_cons]
    by_cases h : isSpaceChar c = true
    · rw [if_pos h, titleAux_cons, if_pos h, ih true]
    · rw [if_neg h]
      cases b with
      | false =>
        rw [if_neg (by simp), titleAux_cons, if_neg h, if_neg (by simp), ih false]
      | true =>
        rw [if_pos rfl, titleAux_cons,
          if_neg (by rw [isSpaceChar_toUpper] ; exact h), if_pos rfl,
          toUpper_toUpper, ih false]

theorem map_toLower_titleAux (b : Bool) (l : List Char) :
    (titleAux b l).map Char.toLower = l.map Char.toLower := by
  induction l generalizing b with
  | nil => rfl
  | cons c cs ih =>
    rw [titleAux_cons]
    by_cases h : isSpaceChar c = true
    · rw [if_pos h, List.map_cons, List.map_cons, ih true]
    · rw [if_neg h]
      cases b with
      | false => rw [if_neg (by simp), List.map_cons, List.map_cons, ih false]
      | true =>
        rw [if_pos rfl, List.map_cons, List.map_cons, ih false, toLower_toUpper]

theorem titleCase_titleCase (s : String) : titleCase (titleCase s) = titleCase s := by
  unfold titleCase
  rw [titleAux_idem]

theorem strLower_titleCase (s : String) : strLower (titleCase s) = strLower s := by
  unfold strLower titleCase
  rw [map_toLower_titleAux]

theorem isBlankValue_titleCase (s : String) : isBlankValue (titleCase s) = isBlankValue s := by
  unfold isBlankValue
  rw [strLower_titleCase]

theorem strLower_trimString (s : String) : strLower (trimString s) = trimString (strLower s) := by
  unfold strLower trimString
  show (⟨(dropTrail (s.data.dropWhile isSpaceChar)).map Char.toLower⟩ : String) = _
  rw [← dropTrail_map_toLower, List.dropWhile_map]
  have hp : (isSpaceChar ∘ Char.toLower) = isSpaceChar := by
    funext c
    exact isSpaceChar_toLower c
  rw [hp]

theorem trimString_trimString (s : String) : trimString (trimString s) = trimString s := by
  unfold trimString
  show (⟨dropTrail (List.dropWhile isSpaceChar
      (dropTrail (s.data.dropWhile isSpaceChar)))⟩ : String) = _
  rw [dropWhile_dropTrail _ (dropWhile_self isSpaceChar s.data), dropTrail_idem]

theorem isBlankValue_trimString (s : String) :
    isBlankValue (trimString s) = isBlankValue s := by
  unfold isBlankValue
  rw [strLower_trimString, trimString_trimString]

theorem canonicalize_str (f : CanonicalField) (s : String) :
    canonicalize f (Value.str s) =
      if isBlankValue s then Value.missing
      else
        match category f with
        | .yesNo =>
          if strLower s ∈ yesTokens then Value.str "Yes"
          else if strLower s ∈ noTokens then Value.str "No"
          else Value.str s
        | .numericRating =>
          match parseNumeric s with
          | some n => Value.num n
          | none => Value.missing
        | .freeText => Value.str (trimString s)
        | .titleCased => Value.str (titleCase s) := rfl

theorem canonicalize_idem (f : CanonicalField) (v : Value) :
    canonicalize f (canonicalize f v) = canonicalize f v := by
  cases v with
  | missing => rfl
  | num n => rfl
  | str s =>
    by_cases hb : isBlankValue s = true
    · simp [canonicalize_str, hb]
      rfl
    · cases hcat : category f with
      | yesNo =>
        by_cases hy : strLower s ∈ yesTokens
        · rw [canonicalize_str, if_neg hb]
          rw [hcat]
          rw [if_pos hy]
          rw [canonicalize_str, if_neg (by decide), hcat, if_pos (by decide)]
        · by_cases hn : strLower s ∈ noTokens
          · rw [canonicalize_str, if_neg hb, hcat, if_neg hy, if_pos hn]
            rw [canonicalize_str, if_neg (by decide), hcat, if_neg (by decide),
              if_pos (by decide)]
          · rw [canonicalize_str, if_neg hb, hcat, if_neg hy, if_neg hn]
            rw [canonicalize_str, if_neg hb, hcat, if_neg hy, if_neg hn]
      | numericRating =>
        rw [canonicalize_str, if_neg hb, hcat]
        cases hp : parseNumeric s with
        | none => rfl
        | some n => rfl
      | freeText =>
        rw [canonicalize_str, if_neg hb, hcat]
        rw [canonicalize_str, isBlankValue_trimString,
          if_neg hb, hcat, trimString_trimString]
      | titleCased =>
        rw [canonicalize_str, if_neg hb, hcat]
        rw [canonicalize_str, isBlankValue_titleCase,
          if_neg hb, hcat, titleCase_titleCase]

/-- Modelled from the spec: the canonical short names under which the
nineteen canonical fields appear as columns. -/
def fieldNames : List (String × CanonicalField) :=
  [("AGE_RANGE", .AGE_RANGE), ("GENDER", .GENDER),
   ("EDUCATION_LEVEL", .EDUCATION_LEVEL), ("EMPLOYMENT_STATUS", .EMPLOYMENT_STATUS),
   ("OCCUPATION", .OCCUPATION), ("DEVICE_USE_FREQUENCY", .DEVICE_USE_FREQUENCY),
   ("AI_KNOWLEDGE", .AI_KNOWLEDGE), ("TRUST_AI", .TRUST_AI),
   ("BENEFIT_OR_HARM", .BENEFIT_OR_HARM), ("AI_USAGE_RATING", .AI_USAGE_RATING),
   ("WANT_MORE_AI", .WANT_MORE_AI), ("THREATEN_FREEDOMS", .THREATEN_FREEDOMS),
   ("ELIMINATE_PROFESSIONS", .ELIMINATE_PROFESSIONS),
   ("OWN_JOB_AFFECTED", .OWN_JOB_AFFECTED), ("ETHICAL_LIMITS", .ETHICAL_LIMITS),
   ("CONSCIOUS_ONE_DAY", .CONSCIOUS_ONE_DAY),
   ("NOT_AI_APPLICATION", .NOT_AI_APPLICATION), ("ML_ALGORITHM", .ML_ALGORITHM),
   ("CHATGPT_TYPE", .CHATGPT_TYPE)]

/-- The canonical field a normalized column name denotes, if any. -/
def fieldOfName (n : String) : Option CanonicalField :=
  fieldNames.lookup n

/-- One cell of the pipeline: a recognized column is cleaned by its
field rule, an unrecognized column passes through verbatim. -/
def canonicalizeCell (name : String) (v : Value) : Value :=
  match fieldOfName name with
  | some f => canonicalize f v
  | none => v

/-- One record entry through the Normalizer plus Canonicalizer. -/
def pipelineEntry (kv : String × Value) : String × Value :=
  (normalize_name kv.1, canonicalizeCell (normalize_name kv.1) kv.2)

/-- A whole raw record through the Normalizer plus Canonicalizer. -/
def pipelineRecord (r : List (String × Value)) : List (String × Value) :=
  r.map pipelineEntry

theorem normalize_name_idem (k : String) :
    normalize_name (normalize_name k) = normalize_name k := by
  have hval : ∀ v, rename_map.lookup k = some v → rename_map.lookup v = none := by
    intro v hv
    have hmem : (k, v) ∈ rename_map := by
      rcases List.lookup_eq_some_iff.mp hv with ⟨l1, l2, heq, _⟩
      rw [heq]
      exact List.mem_append.mpr (Or.inr (List.mem_cons_self _ _))
    fin_cases hmem <;> rfl
  rcases h : rename_map.lookup k with _ | v
  · unfold normalize_name
    rw [h]
    show (match rename_map.lookup k with
      | some canonical => canonical
      | none => k) = k
    rw [h]
  · unfold normalize_name
    rw [h]
    show (match rename_map.lookup v with
      | some canonical => canonical
      | none => v) = v
    rw [hval v h]

theorem canonicalizeCell_idem (name : String) (v : Value) :
    canonicalizeCell name (canonicalizeCell name v) = canonicalizeCell name v := by
  unfold canonicalizeCell
  cases h : fieldOfName name with
  | none => rfl
  | some f => exact canonicalize_idem f v

theorem pipelineEntry_idem (kv : String × Value) :
    pipelineEntry (pipelineEntry kv) = pipelineEntry kv := by
  unfold pipelineEntry
  rw [normalize_name_idem kv.1]
  rw [canonicalizeCell_idem]

/-- C4: canonicalization is idempotent for every field and value, and
the Normalizer plus Canonicalizer pipeline maps an already canonical
record to itself. -/
theorem canonicalize_idempotent :
    (∀ (f : CanonicalField) (v : Value),
        canonicalize f (canonicalize f v) = canonicalize f v) ∧
      ∀ r : List (String × Value), pipelineRecord (pipelineRecord r) = pipelineRecord r := by
  refine ⟨canonicalize_idem, ?_⟩
  intro r
  unfold pipelineRecord
  rw [List.map_map]
  exact List.map_congr_left (fun kv _ => pipelineEntry_idem kv)

/-- C3: on the yes/no fields TRUST_AI and WANT_MORE_AI, every case
variant of yes, y, true, 1 folds to exactly the string Yes, every case
variant of no, n, false, 0 folds to exactly the string No, and every
other non-missing value passes through unchanged. -/
theorem yes_no_folding (f : CanonicalField)
    (hf : f = CanonicalField.TRUST_AI ∨ f = CanonicalField.WANT_MORE_AI) (s : String) :
    (strLower s ∈ yesTokens → canonicalize f (Value.str s) = Value.str "Yes") ∧
      (strLower s ∈ noTokens → canonicalize f (Value.str s) = Value.str "No") ∧
      (strLower s ∉ yesTokens → strLower s ∉ noTokens → isBlankValue s = false →
        canonicalize f (Value.str s) = Value.str s) := by
  have hcat : category f = FieldCategory.yesNo := by
    rcases hf with h | h <;> (rw [h] ; rfl)
  refine ⟨?_, ?_, ?_⟩
  · intro hy
    have hb : isBlankValue s = false := by
      unfold isBlankValue
      rcases (by simpa [yesTokens] using hy : strLower s = "yes" ∨ strLower s = "y" ∨
        strLower s = "true" ∨ strLower s = "1") with h | h | h | h <;> (rw [h] ; rfl)
    rw [canonicalize_str, if_neg (by simp [hb]), hcat, if_pos hy]
  · intro hn
    have hy : strLower s ∉ yesTokens := by
      rcases (by simpa [noTokens] using hn : strLower s = "no" ∨ strLower s = "n" ∨
        strLower s = "false" ∨ strLower s = "0") with h | h | h | h <;> (rw [h] ; decide)
    have hb : isBlankValue s = false := by
      unfold isBlankValue
      rcases (by simpa [noTokens] using hn : strLower s = "no" ∨ strLower s = "n" ∨
        strLower s = "false" ∨ strLower s = "0") with h | h | h | h <;> (rw [h] ; rfl)
    rw [canonicalize_str, if_neg (by simp [hb]), hcat, if_neg hy, if_pos hn]
  · intro hy hn hb
    rw [canonicalize_str, if_neg (by simp [hb]), hcat, if_neg hy, if_neg hn]

/-- Witness for C3: TRUE folds to Yes on TRUST_AI, 0 folds to No on
WANT_MORE_AI, and Maybe passes through unchanged. -/
theorem yes_no_folding_witness :
    canonicalize CanonicalField.TRUST_AI (Value.str "TRUE") = Value.str "Yes" ∧
      canonicalize CanonicalField.WANT_MORE_AI (Value.str "0") = Value.str "No" ∧
      canonicalize CanonicalField.TRUST_AI (Value.str "Maybe") = Value.str "Maybe" :=
  ⟨(yes_no_folding CanonicalField.TRUST_AI (Or.inl rfl) "TRUE").1 (by decide),
   (yes_no_folding CanonicalField.WANT_MORE_AI (Or.inr rfl) "0").2.1 (by decide),
   (yes_no_folding CanonicalField.TRUST_AI (Or.inl rfl) "Maybe").2.2
     (by decide) (by decide) (by decide)⟩

/-- C5: on every text field, a blank raw value (empty string, a
not-a-number or none marker) and an absent value canonicalize to the
single missing marker, before any per-field rule applies; the marker
renders downstream as Not Answered and is distinct by construction
from every answer string. -/
theorem blank_to_missing (f : CanonicalField)
    (_hf : category f ≠ FieldCategory.numericRating) (s : String)
    (hs : isBlankValue s = true) :
    canonicalize f (Value.str s) = Value.missing ∧
      canonicalize f Value.missing = Value.missing ∧
      renderValue Value.missing = "Not Answered" ∧
      ∀ t, Value.missing ≠ Value.str t := by
  refine ⟨?_, rfl, rfl, fun t h => by cases h⟩
  rw [canonicalize_str, if_pos hs]

/-- Witness for C5: the empty string, the none marker and the nan
marker on the title-cased field GENDER all become the missing marker;
none is not title-cased to None first. -/
theorem blank_to_missing_witness :
    canonicalize CanonicalField.GENDER (Value.str "") = Value.missing ∧
      canonicalize CanonicalField.GENDER (Value.str "none") = Value.missing ∧
      canonicalize CanonicalField.GENDER (Value.str "NaN") = Value.missing ∧
      renderValue Value.missing = "Not Answered" :=
  ⟨(blank_to_missing CanonicalField.GENDER (by decide) "" (by decide)).1,
   (blank_to_missing CanonicalField.GENDER (by decide) "none" (by decide)).1,
   (blank_to_missing CanonicalField.GENDER (by decide) "NaN" (by decide)).1,
   (blank_to_missing CanonicalField.GENDER (by decide) "" (by decide)).2.2.1⟩

end AISI
